import Mathlib

/-!
Shallow embedding of the DWC2 host controller driver core
(`src/portable/synopsys/dwc2/hcd_dwc2.c`, slave/FIFO mode, DMA disabled
which is the default `CFG_TUH_DWC2_DMA = 0` build configuration).

Global mutable arrays are modelled as functions `Nat → _` with a pointwise
update combinator; hardware registers are modelled as records of their
bit-fields; C `for` scans become fuelled structural recursion; `TU_ASSERT`
failure is the `false`/early-return exit of the translated function with all
mutations made so far kept, exactly as in the C.
-/

namespace HcdDwc2

/-- hcd_dwc2.c line 52: maximum consecutive transaction-error count. -/
def HCD_XFER_ERROR_MAX : Nat := 3

/-- hcd_dwc2.c lines 55-59: channel lifecycle states. -/
def HCD_XFER_STATE_UNALLOCATED : Nat := 0

def HCD_XFER_STATE_ACTIVE : Nat := 1

def HCD_XFER_STATE_DISABLING : Nat := 2

/-- hcd_dwc2.c line 39: default maximum number of opened endpoints. -/
def CFG_TUH_DWC2_ENDPOINT_MAX : Nat := 16

/-- hcd_dwc2.c line 42: absolute maximum channel count. -/
def DWC2_CHANNEL_COUNT_MAX : Nat := 16

/-- tusb direction codes (tusb_types.h): OUT = 0. -/
def TUSB_DIR_OUT : Nat := 0

/-- tusb direction codes (tusb_types.h): IN = 1. -/
def TUSB_DIR_IN : Nat := 1

/-- tusb speed code for low speed (tusb_types.h). -/
def TUSB_SPEED_LOW : Nat := 1

/-- HCTSIZ PID field values (DWC2 register layout): DATA0. -/
def HCTSIZ_PID_DATA0 : Nat := 0

/-- HCTSIZ PID field values: DATA2. -/
def HCTSIZ_PID_DATA2 : Nat := 1

/-- HCTSIZ PID field values: DATA1. -/
def HCTSIZ_PID_DATA1 : Nat := 2

/-- HCTSIZ PID field values: SETUP / MDATA. -/
def HCTSIZ_PID_SETUP : Nat := 3

/-- HCINT bit (DWC2 register layout): transfer complete. -/
def HCINT_XFER_COMPLETE : Nat := 1

/-- HCINT bit: channel halted. -/
def HCINT_CHANNEL_HALTED : Nat := 2

/-- HCINT bit: STALL response received. -/
def HCINT_STALL : Nat := 8

/-- HCINT bit: NAK response received. -/
def HCINT_NAK : Nat := 16

/-- HCINT bit: ACK response received. -/
def HCINT_ACK : Nat := 32

/-- HCINT bit: NYET response received. -/
def HCINT_NYET : Nat := 64

/-- HCINT bit: transaction error. -/
def HCINT_XACT_ERR : Nat := 128

/-- HCINT bit: babble error. -/
def HCINT_BABBLE_ERR : Nat := 256

/-- HCINT bit: data toggle error. -/
def HCINT_DATATOGGLE_ERR : Nat := 1024

/-- HCCHAR endpoint type field: control. -/
def HCCHAR_EPTYPE_CONTROL : Nat := 0

/-- HCCHAR endpoint type field: isochronous. -/
def HCCHAR_EPTYPE_ISOCHRONOUS : Nat := 1

/-- HCCHAR endpoint type field: bulk. -/
def HCCHAR_EPTYPE_BULK : Nat := 2

/-- HCCHAR endpoint type field: interrupt. -/
def HCCHAR_EPTYPE_INTERRUPT : Nat := 3

/-- GRXSTS packet-status category: IN data packet received. -/
def GRXSTS_PKTSTS_RX_DATA : Nat := 2

/-- GRXSTS packet-status category: IN transfer completed. -/
def GRXSTS_PKTSTS_RX_COMPLETE : Nat := 3

/-- GRXSTS packet-status category: data toggle error. -/
def GRXSTS_PKTSTS_HOST_DATATOGGLE_ERR : Nat := 5

/-- GRXSTS packet-status category: channel halted. -/
def GRXSTS_PKTSTS_HOST_CHANNEL_HALTED : Nat := 7

/-- GINTSTS bit: non-periodic TX FIFO empty (bit 5). -/
def GINTSTS_NPTX_FIFO_EMPTY : Nat := 32

/-- GINTSTS bit: periodic TX FIFO empty (bit 26). -/
def GINTSTS_PTX_FIFO_EMPTY : Nat := 67108864

/-- tusb xfer_result_t: success. -/
def XFER_RESULT_SUCCESS : Nat := 0

/-- tusb xfer_result_t: failed. -/
def XFER_RESULT_FAILED : Nat := 1

/-- tusb xfer_result_t: stalled. -/
def XFER_RESULT_STALLED : Nat := 2

/-- tusb xfer_result_t: invalid, used by the driver to mean "no result yet". -/
def XFER_RESULT_INVALID : Nat := 4

/-- Pointwise update of a function-modelled array cell. -/
def upd {α : Type} (f : Nat → α) (i : Nat) (v : α) : Nat → α :=
  fun j => if j = i then v else f j

theorem upd_self {α : Type} (f : Nat → α) (i : Nat) (v : α) : upd f i v i = v := by
  simp [upd]

theorem upd_other {α : Type} (f : Nat → α) (i j : Nat) (v : α) (h : j ≠ i) :
    upd f i v j = f j := by
  simp [upd, h]

/-- Clear the given mask's bits of `x` (the C `x &= ~mask` on register words:
bitwise AND and OR partition the bits, so subtracting the masked part clears
exactly those bits). -/
def bitClear (x mask : Nat) : Nat := x - (x &&& mask)

/-- tu_edpt_number: low 7 bits of the endpoint address. -/
def tu_edpt_number (ep_addr : Nat) : Nat := ep_addr % 128

/-- tu_edpt_dir: bit 7 of the endpoint address (addresses are 8-bit). -/
def tu_edpt_dir (ep_addr : Nat) : Nat := ep_addr / 128 % 2

/-- tu_edpt_addr: rebuild an endpoint address from number and direction. -/
def tu_edpt_addr (ep_num ep_dir : Nat) : Nat :=
  ep_num ||| (if ep_dir ≠ 0 then 128 else 0)

/-- tu_div_ceil from tusb_common.h: `(a + b - 1) / b`. -/
def tu_div_ceil (a b : Nat) : Nat := (a + b - 1) / b

/-- uint16_t truncation. -/
def wrap16 (n : Nat) : Nat := n % 65536

/-- Bit-field view of an HCCHAR register word / of the `hcchar_bm` member of
`hcd_endpoint_t` (the `enable` bit doubles as the endpoint-slot occupancy
flag). -/
structure ChannelChar where
  ep_size : Nat
  ep_num : Nat
  ep_dir : Nat
  low_speed_dev : Nat
  ep_type : Nat
  err_multi_count : Nat
  dev_addr : Nat
  odd_frame : Nat
  disable : Nat
  enable : Nat
deriving DecidableEq

/-- All-zero HCCHAR word (`tu_memclr`). -/
def ChannelChar.clear : ChannelChar :=
  { ep_size := 0, ep_num := 0, ep_dir := 0, low_speed_dev := 0, ep_type := 0,
    err_multi_count := 0, dev_addr := 0, odd_frame := 0, disable := 0, enable := 0 }

/-- Bit-field view of an HCSPLT register word. -/
structure ChannelSplit where
  hub_port : Nat
  hub_addr : Nat
  xact_pos : Nat
  split_compl : Nat
  split_en : Nat
deriving DecidableEq

/-- All-zero HCSPLT word. -/
def ChannelSplit.clear : ChannelSplit :=
  { hub_port := 0, hub_addr := 0, xact_pos := 0, split_compl := 0, split_en := 0 }

/-- Embeds `hcd_endpoint_t`: one endpoint-table slot. -/
structure HcdEndpoint where
  hcchar : ChannelChar
  hcsplt : ChannelSplit
  next_data_toggle : Nat
deriving DecidableEq

/-- Cleared endpoint slot (`tu_memclr`). -/
def HcdEndpoint.clear : HcdEndpoint :=
  { hcchar := ChannelChar.clear, hcsplt := ChannelSplit.clear, next_data_toggle := 0 }

/-- Embeds `hcd_xfer_t`: per-channel software bookkeeping while a transfer is active.
The buffer pointer is modelled as a cursor offset. -/
structure HcdXfer where
  state : Nat
  err_count : Nat
  buffer : Nat
  total_bytes : Nat
deriving DecidableEq

/-- Cleared channel bookkeeping (`tu_memclr`). -/
def HcdXfer.clear : HcdXfer :=
  { state := 0, err_count := 0, buffer := 0, total_bytes := 0 }

/-- Bit-field view of an HCTSIZ register word. -/
structure Hctsiz where
  pid : Nat
  packet_count : Nat
  xfer_size : Nat
deriving DecidableEq

/-- All-zero HCTSIZ word. -/
def Hctsiz.clear : Hctsiz := { pid := 0, packet_count := 0, xfer_size := 0 }

/-- One hardware channel's register set (the registers the driver core
touches). `hcint` holds the raw interrupt status bits; `hcintmsk` the enabled
mask. -/
structure Dwc2Channel where
  hcchar : ChannelChar
  hcsplt : ChannelSplit
  hctsiz : Hctsiz
  hcintmsk : Nat
  hcint : Nat
deriving DecidableEq

/-- All-zero channel register set. -/
def Dwc2Channel.clear : Dwc2Channel :=
  { hcchar := ChannelChar.clear, hcsplt := ChannelSplit.clear, hctsiz := Hctsiz.clear,
    hcintmsk := 0, hcint := 0 }

/-- The controller registers the host core reads or writes.
`hptxsts_req_queue_available` / `hnptxsts_req_queue_available` are the
request-queue-space fields of HPTXSTS / HNPTXSTS. -/
structure Dwc2Regs where
  channel : Nat → Dwc2Channel
  haintmsk : Nat
  gintmsk : Nat
  hfnum : Nat
  num_host_ch : Nat
  hptxsts_req_queue_available : Nat
  hnptxsts_req_queue_available : Nat

/-- Embeds `hcd_data_t`: the driver's global state. -/
structure HcdData where
  xfer : Nat → HcdXfer
  edpt : Nat → HcdEndpoint

/-- Driver state plus controller registers. -/
structure HcdState where
  hcd : HcdData
  dwc2 : Dwc2Regs

/-- Embeds `DWC2_CHANNEL_COUNT`: hardware channel count capped at the absolute max. -/
def DWC2_CHANNEL_COUNT (dwc2 : Dwc2Regs) : Nat :=
  min (dwc2.num_host_ch + 1) DWC2_CHANNEL_COUNT_MAX

/-- Embeds `request_queue_avail`: free request-queue entries for the periodic or
non-periodic queue. -/
def request_queue_avail (dwc2 : Dwc2Regs) (is_period : Bool) : Nat :=
  if is_period then dwc2.hptxsts_req_queue_available else dwc2.hnptxsts_req_queue_available

/-- Embeds `channel_is_periodic`: interrupt or isochronous endpoint type. -/
def channel_is_periodic (hcchar : ChannelChar) : Bool :=
  hcchar.ep_type = HCCHAR_EPTYPE_INTERRUPT || hcchar.ep_type = HCCHAR_EPTYPE_ISOCHRONOUS

/-- Linear scan of `channel_alloc`: first channel index at or after `i`
(within `fuel` more slots) whose state is unallocated. -/
def scan_unallocated (xfer : Nat → HcdXfer) (i fuel : Nat) : Option Nat :=
  match fuel with
  | 0 => none
  | fuel + 1 =>
    if (xfer i).state = HCD_XFER_STATE_UNALLOCATED then some i
    else scan_unallocated xfer (i + 1) fuel

/-- Embeds `channel_alloc`: find a free channel, zero its working state and mark it
active. -/
def channel_alloc (xfer : Nat → HcdXfer) (max_channel : Nat) :
    Option (Nat × (Nat → HcdXfer)) :=
  match scan_unallocated xfer 0 max_channel with
  | some ch_id =>
    some (ch_id, upd xfer ch_id { HcdXfer.clear with state := HCD_XFER_STATE_ACTIVE })
  | none => none

/-- Embeds `channel_dealloc`: mark the channel unallocated (only the state field is
written). -/
def channel_dealloc (xfer : Nat → HcdXfer) (ch_id : Nat) : Nat → HcdXfer :=
  upd xfer ch_id { xfer ch_id with state := HCD_XFER_STATE_UNALLOCATED }

/-- The per-slot match condition of `edpt_find_opened` (and, on channels, of
`channel_find_enabled`): EP0 is bidirectional and matched by number only. -/
def edpt_matches (hcchar : ChannelChar) (dev_addr ep_num ep_dir : Nat) : Bool :=
  hcchar.enable = 1 && hcchar.dev_addr = dev_addr && hcchar.ep_num = ep_num &&
    (ep_num = 0 || hcchar.ep_dir = ep_dir)

/-- Linear scan of `edpt_find_opened`. -/
def edpt_scan_opened (edpt : Nat → HcdEndpoint) (dev_addr ep_num ep_dir i fuel : Nat) :
    Option Nat :=
  match fuel with
  | 0 => none
  | fuel + 1 =>
    if edpt_matches (edpt i).hcchar dev_addr ep_num ep_dir then some i
    else edpt_scan_opened edpt dev_addr ep_num ep_dir (i + 1) fuel

/-- Embeds `edpt_find_opened`: find an endpoint slot opened by `hcd_edpt_open`. -/
def edpt_find_opened (edpt : Nat → HcdEndpoint) (dev_addr ep_num ep_dir : Nat) :
    Option Nat :=
  edpt_scan_opened edpt dev_addr ep_num ep_dir 0 CFG_TUH_DWC2_ENDPOINT_MAX

/-- Linear scan of `channel_find_enabled`: allocated channel whose hardware
HCCHAR matches the tuple (EP0 bidirectional). -/
def channel_scan_enabled (dwc2 : Dwc2Regs) (xfer : Nat → HcdXfer)
    (dev_addr ep_num ep_dir i fuel : Nat) : Option Nat :=
  match fuel with
  | 0 => none
  | fuel + 1 =>
    if (xfer i).state ≠ HCD_XFER_STATE_UNALLOCATED ∧
        (dwc2.channel i).hcchar.dev_addr = dev_addr ∧
        (dwc2.channel i).hcchar.ep_num = ep_num ∧
        (ep_num = 0 ∨ (dwc2.channel i).hcchar.ep_dir = ep_dir) then some i
    else channel_scan_enabled dwc2 xfer dev_addr ep_num ep_dir (i + 1) fuel

/-- Embeds `channel_find_enabled`. -/
def channel_find_enabled (dwc2 : Dwc2Regs) (xfer : Nat → HcdXfer)
    (dev_addr ep_num ep_dir : Nat) : Option Nat :=
  channel_scan_enabled dwc2 xfer dev_addr ep_num ep_dir 0 (DWC2_CHANNEL_COUNT dwc2)

/-- Embeds `tusb_desc_endpoint_t`: the descriptor fields `hcd_edpt_open` reads. -/
structure EndpointDescriptor where
  bEndpointAddress : Nat
  wMaxPacketSize : Nat
  xfer_type : Nat
deriving DecidableEq

/-- Embeds `hcd_devtree_info_t`: the routing info `hcd_edpt_open` reads. -/
structure DevtreeInfo where
  speed : Nat
  hub_addr : Nat
  hub_port : Nat
deriving DecidableEq

/-- tu_edpt_packet_size: low 11 bits of wMaxPacketSize. -/
def tu_edpt_packet_size (desc : EndpointDescriptor) : Nat :=
  desc.wMaxPacketSize % 2048

/-- Linear scan of `hcd_edpt_open` for a free slot (`hcchar_bm->enable == 0`). -/
def edpt_scan_free (edpt : Nat → HcdEndpoint) (i fuel : Nat) : Option Nat :=
  match fuel with
  | 0 => none
  | fuel + 1 =>
    if (edpt i).hcchar.enable = 0 then some i
    else edpt_scan_free edpt (i + 1) fuel

/-- The slot contents `hcd_edpt_open` writes into the free slot it found:
populated from the descriptor and device-tree routing info, data toggle
started at DATA0, enable bit set. -/
def open_slot (dev_addr : Nat) (desc : EndpointDescriptor) (devtree : DevtreeInfo) :
    HcdEndpoint :=
  { hcchar :=
    { ep_size := tu_edpt_packet_size desc,
      ep_num := tu_edpt_number desc.bEndpointAddress,
      ep_dir := tu_edpt_dir desc.bEndpointAddress,
      low_speed_dev := if devtree.speed = TUSB_SPEED_LOW then 1 else 0,
      ep_type := desc.xfer_type,
      err_multi_count := 0,
      dev_addr := dev_addr,
      odd_frame := 0,
      disable := 0,
      enable := 1 },
    hcsplt :=
    { hub_port := devtree.hub_port, hub_addr := devtree.hub_addr,
      xact_pos := 0, split_compl := 0, split_en := 0 },
    next_data_toggle := HCTSIZ_PID_DATA0 }

/-- Embeds `hcd_edpt_open`: find a free slot and populate it from the descriptor and
device-tree routing info; the data toggle starts at DATA0. -/
def hcd_edpt_open (s : HcdState) (dev_addr : Nat) (desc : EndpointDescriptor)
    (devtree : DevtreeInfo) : Bool × HcdState :=
  match edpt_scan_free s.hcd.edpt 0 CFG_TUH_DWC2_ENDPOINT_MAX with
  | none => (false, s)
  | some i =>
    (true, { s with hcd := { s.hcd with
      edpt := upd s.hcd.edpt i (open_slot dev_addr desc devtree) } })

/-- The endpoint-table effect of `hcd_device_close`'s loop: `tu_memclr` every
slot inside the table bounds whose `enable` bit is set and whose device
address matches. -/
def device_close_table (edpt : Nat → HcdEndpoint) (dev_addr : Nat) : Nat → HcdEndpoint :=
  fun i =>
    if i < CFG_TUH_DWC2_ENDPOINT_MAX ∧ (edpt i).hcchar.enable = 1 ∧
        (edpt i).hcchar.dev_addr = dev_addr
    then HcdEndpoint.clear else edpt i

/-- Embeds `hcd_device_close`: clear every opened endpoint slot belonging to the
device; the loop only touches the endpoint table, never the channel pool or
the controller registers. -/
def hcd_device_close (s : HcdState) (dev_addr : Nat) : HcdState :=
  { s with hcd := { s.hcd with edpt := device_close_table s.hcd.edpt dev_addr } }

/-- Embeds `hcd_edpt_xfer`, slave mode (DMA disabled): resolve the endpoint slot,
allocate a channel, program HCTSIZ (PID / packet count / transfer size),
advance the stored data toggle, copy HCSPLT, set odd frame and direction
(these two writes go through the `hcchar_bm` pointer into the endpoint
table), record buffer and length, then enable the channel — for IN only after
`TU_ASSERT(request_queue_avail(..))`, whose failure returns `false` keeping
every mutation made so far (the allocated channel included); for OUT with
payload the periodic or non-periodic FIFO-empty interrupt is unmasked.
Finally HCINTMSK and the HAINTMSK bit are set (skipped on the failing IN
path, as in the C early return). -/
def hcd_edpt_xfer (s : HcdState) (dev_addr ep_addr buffer buflen : Nat) :
    Bool × HcdState :=
  let dwc2 := s.dwc2
  let ep_num := tu_edpt_number ep_addr
  let ep_dir := tu_edpt_dir ep_addr
  match edpt_find_opened s.hcd.edpt dev_addr ep_num ep_dir with
  | none => (false, s)
  | some ep_id =>
    let edpt := s.hcd.edpt ep_id
    match channel_alloc s.hcd.xfer (DWC2_CHANNEL_COUNT dwc2) with
    | none => (false, s)
    | some (ch_id, xfer1) =>
      let hcintmsk0 := HCINT_NAK ||| HCINT_XACT_ERR ||| HCINT_STALL |||
        HCINT_XFER_COMPLETE ||| HCINT_DATATOGGLE_ERR
      let hcintmsk := if edpt.hcchar.ep_dir = TUSB_DIR_OUT then hcintmsk0 ||| HCINT_NYET
        else hcintmsk0 ||| HCINT_BABBLE_ERR ||| HCINT_DATATOGGLE_ERR
      let packet_count0 := tu_div_ceil buflen edpt.hcchar.ep_size
      let packet_count := if packet_count0 = 0 then 1 else packet_count0
      let hctsiz : Hctsiz :=
        { pid := edpt.next_data_toggle, packet_count := packet_count, xfer_size := buflen }
      let next_toggle :=
        if edpt.next_data_toggle = HCTSIZ_PID_DATA0 ∨ ep_num = 0 then HCTSIZ_PID_DATA1
        else HCTSIZ_PID_DATA0
      let hcchar1 : ChannelChar :=
        { edpt.hcchar with odd_frame := 1 - dwc2.hfnum % 2, ep_dir := ep_dir }
      let edpt1 : HcdEndpoint :=
        { edpt with hcchar := hcchar1, next_data_toggle := next_toggle }
      let chan1 : Dwc2Channel :=
        { dwc2.channel ch_id with
          hcsplt := edpt.hcsplt,
          hctsiz := hctsiz,
          hcchar := { hcchar1 with enable := 0 } }
      let xfer2 := upd xfer1 ch_id { xfer1 ch_id with buffer := buffer, total_bytes := buflen }
      let is_period := channel_is_periodic hcchar1
      if ep_dir = TUSB_DIR_IN then
        if request_queue_avail dwc2 is_period = 0 then
          let hcd1 : HcdData := { xfer := xfer2, edpt := upd s.hcd.edpt ep_id edpt1 }
          let dwc2f : Dwc2Regs := { dwc2 with channel := upd dwc2.channel ch_id chan1 }
          (false, { hcd := hcd1, dwc2 := dwc2f })
        else
          let chan2 : Dwc2Channel :=
            { chan1 with hcchar := { chan1.hcchar with enable := 1 }, hcintmsk := hcintmsk }
          let hcd1 : HcdData := { xfer := xfer2, edpt := upd s.hcd.edpt ep_id edpt1 }
          let dwc2t : Dwc2Regs :=
            { dwc2 with
              channel := upd dwc2.channel ch_id chan2,
              haintmsk := dwc2.haintmsk ||| 2 ^ ch_id }
          (true, { hcd := hcd1, dwc2 := dwc2t })
      else
        let chan2 : Dwc2Channel :=
          { chan1 with hcchar := { chan1.hcchar with enable := 1 }, hcintmsk := hcintmsk }
        let gintmsk1 :=
          if buflen > 0 then
            dwc2.gintmsk ||| (if is_period then GINTSTS_PTX_FIFO_EMPTY
              else GINTSTS_NPTX_FIFO_EMPTY)
          else dwc2.gintmsk
        let hcd1 : HcdData := { xfer := xfer2, edpt := upd s.hcd.edpt ep_id edpt1 }
        let dwc2o : Dwc2Regs :=
          { dwc2 with
            channel := upd dwc2.channel ch_id chan2,
            gintmsk := gintmsk1,
            haintmsk := dwc2.haintmsk ||| 2 ^ ch_id }
        (true, { hcd := hcd1, dwc2 := dwc2o })

/-- Embeds `hcd_setup_send`: force the control endpoint's next data toggle to SETUP,
then submit an 8-byte transfer to EP0 OUT. -/
def hcd_setup_send (s : HcdState) (dev_addr setup_buffer : Nat) : Bool × HcdState :=
  match edpt_find_opened s.hcd.edpt dev_addr 0 TUSB_DIR_OUT with
  | none => (false, s)
  | some ep_id =>
    let edpt1 := { s.hcd.edpt ep_id with next_data_toggle := HCTSIZ_PID_SETUP }
    let s1 := { s with hcd := { s.hcd with edpt := upd s.hcd.edpt ep_id edpt1 } }
    hcd_edpt_xfer s1 dev_addr 0 setup_buffer 8

/-- Result of `hcd_edpt_abort_xfer`. `hardFault` records the
`TU_BREAKPOINT()` hit when the request queue is unavailable at disable time. -/
structure AbortResult where
  ret : Bool
  dwc2 : Dwc2Regs
  hardFault : Bool

/-- Embeds `hcd_edpt_abort_xfer`: locate the opened endpoint (TU_VERIFY fails with
`false` if not open), then look for an allocated channel matching the tuple
and request a hardware disable on it; the function returns `true` whether or
not such a channel was found. -/
def hcd_edpt_abort_xfer (s : HcdState) (dev_addr ep_addr : Nat) : AbortResult :=
  let ep_num := tu_edpt_number ep_addr
  let ep_dir := tu_edpt_dir ep_addr
  match edpt_find_opened s.hcd.edpt dev_addr ep_num ep_dir with
  | none => { ret := false, dwc2 := s.dwc2, hardFault := false }
  | some ep_id =>
    let edpt := s.hcd.edpt ep_id
    match channel_find_enabled s.dwc2 s.hcd.xfer dev_addr ep_num ep_dir with
    | none => { ret := true, dwc2 := s.dwc2, hardFault := false }
    | some ch_id =>
      if request_queue_avail s.dwc2 (channel_is_periodic edpt.hcchar) ≠ 0 then
        let chan := s.dwc2.channel ch_id
        let chan1 : Dwc2Channel := { chan with hcchar := { chan.hcchar with disable := 1 } }
        let dwc2a : Dwc2Regs := { s.dwc2 with channel := upd s.dwc2.channel ch_id chan1 }
        { ret := true, dwc2 := dwc2a, hardFault := false }
      else
        { ret := true, dwc2 := s.dwc2, hardFault := true }

/-- GRXSTSP pop result word. -/
structure Grxstsp where
  ep_ch_num : Nat
  byte_count : Nat
  packet_status : Nat
deriving DecidableEq

/-- Result of one `handle_rxflvl_irq` pass on the popped status word.
`bytesDrained` is the byte count handed to `dfifo_read_packet`; `fatal`
records the `TU_ASSERT(0)` on a data-toggle-error status. -/
structure RxflvlResult where
  xfer : HcdXfer
  bytesDrained : Nat
  fatal : Bool
deriving DecidableEq

/-- Embeds `handle_rxflvl_irq`: pop one status word. For a data-received status,
drain `byte_count` bytes into the channel buffer and advance the cursor; if
the packet is short (`byte_count < hctsiz.xfer_size`), subtract the full
`xfer_size` (not the received count) from `total_bytes` with uint16
wraparound. Transfer-complete and channel-halted statuses are no-ops;
data-toggle error asserts. -/
def handle_rxflvl_irq (grx : Grxstsp) (chan : Dwc2Channel) (xfer : HcdXfer) :
    RxflvlResult :=
  if grx.packet_status = GRXSTS_PKTSTS_RX_DATA then
    let byte_count := grx.byte_count
    let xfer1 := { xfer with buffer := xfer.buffer + byte_count }
    let xfer2 :=
      if byte_count < chan.hctsiz.xfer_size then
        { xfer1 with
          total_bytes := wrap16 (xfer1.total_bytes + 65536 - wrap16 chan.hctsiz.xfer_size) }
      else xfer1
    { xfer := xfer2, bytesDrained := byte_count, fatal := false }
  else if grx.packet_status = GRXSTS_PKTSTS_HOST_DATATOGGLE_ERR then
    { xfer := xfer, bytesDrained := 0, fatal := true }
  else
    { xfer := xfer, bytesDrained := 0, fatal := false }

/-- Arguments of the `hcd_event_xfer_complete` callback raised to the host
stack. -/
structure XferEvent where
  dev_addr : Nat
  ep_addr : Nat
  xferred_bytes : Nat
  result : Nat
deriving DecidableEq

/-- Result of one per-channel iteration of `handle_channel_irq`.
`earlyReturn` records the `TU_ASSERT(request_queue_avail .., )` in the IN NAK
branch, which returns from the whole handler on failure. -/
structure ChannelIrqResult where
  channel : Dwc2Channel
  xfer : HcdXfer
  haintmsk : Nat
  event : Option XferEvent
  earlyReturn : Bool
deriving DecidableEq

/-- Outcome of the priority-ordered branch dispatch inside one per-channel
iteration of `handle_channel_irq`. -/
structure BranchResult where
  result : Nat
  channel : Dwc2Channel
  xfer : HcdXfer
  earlyReturn : Bool
deriving DecidableEq

/-- Priority-ordered branch dispatch of `handle_channel_irq` (slave mode):
transfer complete / stall / NAK-transaction error-NYET / channel halted /
ACK. `hcint` is the already-masked interrupt word. The channel-halted branch
mirrors the C exactly: it tests `hcchar_bm.err_multi_count ==
HCD_XFER_ERROR_MAX` but both arms are empty. `earlyReturn` records the
`TU_ASSERT(request_queue_avail .., )` in the IN NAK branch, which returns
from the whole handler on failure. -/
def channel_irq_branch (dwc2 : Dwc2Regs) (hcint : Nat) (chan : Dwc2Channel)
    (xfer : HcdXfer) : BranchResult :=
  let hcchar_bm := chan.hcchar
  if hcint &&& HCINT_XFER_COMPLETE ≠ 0 then
    { result := XFER_RESULT_SUCCESS,
      channel := { chan with hcintmsk := bitClear chan.hcintmsk HCINT_ACK },
      xfer := { xfer with state := HCD_XFER_STATE_UNALLOCATED }, earlyReturn := false }
  else if hcint &&& HCINT_STALL ≠ 0 then
    { result := XFER_RESULT_STALLED,
      channel :=
        { chan with
          hcintmsk := chan.hcintmsk ||| HCINT_CHANNEL_HALTED,
          hcchar := { chan.hcchar with disable := 1 } },
      xfer := xfer, earlyReturn := false }
  else if hcint &&& (HCINT_NAK ||| HCINT_XACT_ERR ||| HCINT_NYET) ≠ 0 then
    if hcchar_bm.ep_dir ≠ TUSB_DIR_OUT ∧ hcint &&& HCINT_NAK ≠ 0 ∧
        request_queue_avail dwc2 (channel_is_periodic hcchar_bm) = 0 then
      { result := XFER_RESULT_INVALID, channel := chan, xfer := xfer, earlyReturn := true }
    else
      let chan1 :=
        if hcchar_bm.ep_dir ≠ TUSB_DIR_OUT ∧ hcint &&& HCINT_NAK ≠ 0 then
          { chan with hcchar := { chan.hcchar with enable := 1 } }
        else chan
      if hcint &&& HCINT_XACT_ERR ≠ 0 then
        { result := XFER_RESULT_INVALID,
          channel := { chan1 with hcintmsk := chan1.hcintmsk ||| HCINT_ACK },
          xfer := { xfer with err_count := xfer.err_count + 1 }, earlyReturn := false }
      else
        { result := XFER_RESULT_INVALID, channel := chan1,
          xfer := { xfer with err_count := 0 }, earlyReturn := false }
  else if hcint &&& HCINT_CHANNEL_HALTED ≠ 0 then
    if hcchar_bm.err_multi_count = HCD_XFER_ERROR_MAX then
      { result := XFER_RESULT_INVALID, channel := chan, xfer := xfer, earlyReturn := false }
    else
      { result := XFER_RESULT_INVALID, channel := chan, xfer := xfer, earlyReturn := false }
  else if hcint &&& HCINT_ACK ≠ 0 then
    { result := XFER_RESULT_INVALID,
      channel := { chan with hcintmsk := bitClear chan.hcintmsk HCINT_ACK },
      xfer := { xfer with err_count := 0 }, earlyReturn := false }
  else
    { result := XFER_RESULT_INVALID, channel := chan, xfer := xfer, earlyReturn := false }

/-- Common tail of one per-channel iteration of `handle_channel_irq`: if a
terminal result was produced or the channel-halted bit fired, clear the
channel's HAINTMSK bit and, only for a terminal result, raise the completion
event — with `xferred_bytes` hardcoded to 0 as in the C call
`hcd_event_xfer_complete(dev_addr, ep_addr, 0, result, in_isr)`. Finally the
handled bits are written back to the write-1-clear HCINT. -/
def channel_irq_finish (hcint : Nat) (hcchar_bm : ChannelChar) (haintmsk ch_id : Nat)
    (b : BranchResult) : ChannelIrqResult :=
  if b.earlyReturn then
    { channel := b.channel, xfer := b.xfer, haintmsk := haintmsk, event := none,
      earlyReturn := true }
  else
    let haintmsk1 :=
      if b.result ≠ XFER_RESULT_INVALID ∨ hcint &&& HCINT_CHANNEL_HALTED ≠ 0 then
        bitClear haintmsk (2 ^ ch_id)
      else haintmsk
    let event : Option XferEvent :=
      if b.result ≠ XFER_RESULT_INVALID ∨ hcint &&& HCINT_CHANNEL_HALTED ≠ 0 then
        if b.result ≠ XFER_RESULT_INVALID then
          some { dev_addr := hcchar_bm.dev_addr,
                 ep_addr := tu_edpt_addr hcchar_bm.ep_num hcchar_bm.ep_dir,
                 xferred_bytes := 0, result := b.result }
        else none
      else none
    { channel := { b.channel with hcint := bitClear b.channel.hcint hcint },
      xfer := b.xfer, haintmsk := haintmsk1, event := event, earlyReturn := false }

/-- Body of one per-channel iteration of `handle_channel_irq` (slave mode):
mask the raw HCINT bits against the enabled mask, snapshot `hcchar_bm`,
dispatch the priority branches, then run the common completion tail. -/
def handle_channel_irq_ch (dwc2 : Dwc2Regs) (haintmsk ch_id : Nat)
    (chan : Dwc2Channel) (xfer : HcdXfer) : ChannelIrqResult :=
  let hcint := chan.hcint &&& chan.hcintmsk
  channel_irq_finish hcint chan.hcchar haintmsk ch_id
    (channel_irq_branch dwc2 hcint chan xfer)

/-- Periodic / non-periodic TX status register fields read by
`handle_txfifo_empty`. -/
structure TxfifoTxsts where
  fifo_available : Nat
  req_queue_available : Nat
deriving DecidableEq

/-- Result of one iteration of the inner packet loop of
`handle_txfifo_empty`. `needMoreIsr` is the `return true` ("more interrupts
needed"); `wrote` records the `dfifo_write_packet` call. -/
structure TxfifoStepResult where
  needMoreIsr : Bool
  wrote : Bool
  buffer : Nat
deriving DecidableEq

/-- One iteration of the inner packet loop of `handle_txfifo_empty` for an
active OUT channel, with the register snapshot (remaining transfer size and
TX status) passed in: compute the next packet size as
`min(remaining, ep_size)`, then either return "need more ISR" or write the
packet to the FIFO and advance the buffer cursor. The stop condition is
translated verbatim from the C:
`(xact_bytes > fifo_available) && (req_queue_available > 0)`. -/
def handle_txfifo_empty_step (txsts : TxfifoTxsts) (hcchar : ChannelChar)
    (hctsiz_xfer_size buffer : Nat) : TxfifoStepResult :=
  let remain_bytes := hctsiz_xfer_size
  let xact_bytes := min remain_bytes hcchar.ep_size
  if xact_bytes > txsts.fifo_available ∧ txsts.req_queue_available > 0 then
    { needMoreIsr := true, wrote := false, buffer := buffer }
  else
    { needMoreIsr := false, wrote := true, buffer := buffer + xact_bytes }

/-!  Concrete fixtures used by the claim theorems and their witnesses. -/

/-- HCCHAR of an opened bulk IN endpoint: device 1, endpoint 1 IN, 64-byte
packets, full speed. -/
def bulkInChar : ChannelChar :=
  { ep_size := 64, ep_num := 1, ep_dir := 1, low_speed_dev := 0,
    ep_type := HCCHAR_EPTYPE_BULK, err_multi_count := 0, dev_addr := 1,
    odd_frame := 0, disable := 0, enable := 1 }

/-- HCCHAR of an opened bulk OUT endpoint: device 1, endpoint 1 OUT. -/
def bulkOutChar : ChannelChar :=
  { ep_size := 64, ep_num := 1, ep_dir := 0, low_speed_dev := 0,
    ep_type := HCCHAR_EPTYPE_BULK, err_multi_count := 0, dev_addr := 1,
    odd_frame := 0, disable := 0, enable := 1 }

/-- Endpoint-table slot for the bulk IN endpoint. -/
def epBulkIn : HcdEndpoint :=
  { hcchar := bulkInChar, hcsplt := ChannelSplit.clear,
    next_data_toggle := HCTSIZ_PID_DATA0 }

/-- Endpoint-table slot for the bulk OUT endpoint. -/
def epBulkOut : HcdEndpoint :=
  { hcchar := bulkOutChar, hcsplt := ChannelSplit.clear,
    next_data_toggle := HCTSIZ_PID_DATA0 }

/-- Endpoint-table slot for the control endpoint EP0 of device 1. -/
def epControl : HcdEndpoint :=
  { hcchar :=
    { ep_size := 64, ep_num := 0, ep_dir := 0, low_speed_dev := 0,
      ep_type := HCCHAR_EPTYPE_CONTROL, err_multi_count := 0, dev_addr := 1,
      odd_frame := 0, disable := 0, enable := 1 },
    hcsplt := ChannelSplit.clear, next_data_toggle := HCTSIZ_PID_DATA0 }

/-- Endpoint-table slot for a bulk OUT endpoint of device 2. -/
def epDev2 : HcdEndpoint :=
  { hcchar := { bulkOutChar with dev_addr := 2 }, hcsplt := ChannelSplit.clear,
    next_data_toggle := HCTSIZ_PID_DATA0 }

/-- Controller registers: 8 hardware channels, idle, one free request-queue
entry in each queue. -/
def regsBase : Dwc2Regs :=
  { channel := fun _ => Dwc2Channel.clear, haintmsk := 0, gintmsk := 0, hfnum := 0,
    num_host_ch := 7, hptxsts_req_queue_available := 1, hnptxsts_req_queue_available := 1 }

/-- Empty driver state. -/
def sEmpty : HcdState :=
  { hcd := { xfer := fun _ => HcdXfer.clear, edpt := fun _ => HcdEndpoint.clear },
    dwc2 := regsBase }

/-- State with the bulk OUT endpoint opened in slot 0 and no active channel. -/
def sC8 : HcdState :=
  { hcd := { xfer := fun _ => HcdXfer.clear,
             edpt := upd (fun _ => HcdEndpoint.clear) 0 epBulkOut },
    dwc2 := regsBase }

/-- State for device close: device 1 has a bulk IN endpoint (slot 0) and EP0
(slot 1) open, device 2 has a bulk OUT endpoint (slot 2) open, and channel 0
is active. -/
def sC10 : HcdState :=
  { hcd := { xfer := upd (fun _ => HcdXfer.clear) 0
               { state := HCD_XFER_STATE_ACTIVE, err_count := 0, buffer := 0,
                 total_bytes := 64 },
             edpt := upd (upd (upd (fun _ => HcdEndpoint.clear) 0 epBulkIn) 1 epControl)
               2 epDev2 },
    dwc2 := regsBase }

/-!  Claim theorems. -/

/-- C4: the transmit FIFO-empty handler is claimed to write a packet only
when there is simultaneously enough free FIFO space and free request-queue
capacity, and to stop otherwise. The code's stop condition is
`(xact_bytes > fifo_available) && (req_queue_available > 0)`: with 0 words of
FIFO space and 0 free request-queue entries it does NOT stop — it writes the
64-byte packet and advances the cursor — while with 0 words of FIFO space and
one free queue entry it stops. This evaluation exhibits the divergence
(contradicting the code's own comment "check if there is enough space in FIFO
and RequestQueue"). -/
theorem c4_bug_eval :
    handle_txfifo_empty_step { fifo_available := 0, req_queue_available := 0 }
        bulkOutChar 64 0 =
      { needMoreIsr := false, wrote := true, buffer := 64 } ∧
    handle_txfifo_empty_step { fifo_available := 0, req_queue_available := 1 }
        bulkOutChar 64 0 =
      { needMoreIsr := true, wrote := false, buffer := 0 } := by
  decide

/-- C5: a popped data-received status entry with a byte count smaller than
the channel's HCTSIZ transfer-size field drains exactly `byte_count` bytes,
advances the buffer cursor by `byte_count`, and decrements the remaining-byte
counter by the full transfer-size field, not the actual byte count. -/
theorem c5_short_packet_accounting (grx : Grxstsp) (chan : Dwc2Channel) (xfer : HcdXfer)
    (h1 : grx.packet_status = GRXSTS_PKTSTS_RX_DATA)
    (h2 : grx.byte_count < chan.hctsiz.xfer_size)
    (h3 : chan.hctsiz.xfer_size ≤ xfer.total_bytes)
    (h4 : xfer.total_bytes < 65536) :
    (handle_rxflvl_irq grx chan xfer).bytesDrained = grx.byte_count ∧
    (handle_rxflvl_irq grx chan xfer).xfer.buffer = xfer.buffer + grx.byte_count ∧
    (handle_rxflvl_irq grx chan xfer).xfer.total_bytes =
      xfer.total_bytes - chan.hctsiz.xfer_size := by
  unfold handle_rxflvl_irq
  rw [h1]
  simp [h2, wrap16]
  omega

/-- Fixture channel for the receive-path witness: HCTSIZ transfer size 64. -/
def rxChan : Dwc2Channel :=
  { Dwc2Channel.clear with hctsiz := { pid := 0, packet_count := 3, xfer_size := 64 } }

/-- Fixture bookkeeping for the receive-path witness. -/
def rxXfer : HcdXfer :=
  { state := HCD_XFER_STATE_ACTIVE, err_count := 0, buffer := 100, total_bytes := 200 }

/-- Fixture status word for the receive-path witness: 10-byte data packet on
channel 0. -/
def rxWord : Grxstsp :=
  { ep_ch_num := 0, byte_count := 10, packet_status := GRXSTS_PKTSTS_RX_DATA }

/-- Witness for C5: a 10-byte short packet against a 64-byte transfer size
drains 10 bytes, advances the cursor to 110, and drops the remaining count by
64 (200 to 136). -/
theorem c5_witness :
    (handle_rxflvl_irq rxWord rxChan rxXfer).bytesDrained = rxWord.byte_count ∧
    (handle_rxflvl_irq rxWord rxChan rxXfer).xfer.buffer =
      rxXfer.buffer + rxWord.byte_count ∧
    (handle_rxflvl_irq rxWord rxChan rxXfer).xfer.total_bytes =
      rxXfer.total_bytes - rxChan.hctsiz.xfer_size :=
  c5_short_packet_accounting rxWord rxChan rxXfer rfl (by decide) (by decide) (by decide)

/-- C8: the claim (and the function's own doc comment, "Return true if a
queued transfer is aborted, false if there is no transfer to abort") says
abort reports nothing-to-abort when no active channel backs the endpoint.
With the endpoint opened but every channel unallocated, no enabled channel
matches, yet the function returns `true`. -/
theorem c8_bug_eval :
    channel_find_enabled sC8.dwc2 sC8.hcd.xfer 1 1 0 = none ∧
    (hcd_edpt_abort_xfer sC8 1 1).ret = true ∧
    (hcd_edpt_abort_xfer sC8 1 1).hardFault = false := by
  constructor
  · decide
  · constructor <;> decide

/-- C10: closing a device clears exactly the opened endpoint slots whose
device address matches, leaves every other slot, the channel pool and the
controller registers unchanged, and a second close with the same address is a
no-op. -/
theorem c10_device_close (s : HcdState) (dev_addr : Nat) :
    (hcd_device_close s dev_addr).hcd.xfer = s.hcd.xfer ∧
    (hcd_device_close s dev_addr).dwc2 = s.dwc2 ∧
    (∀ i, i < CFG_TUH_DWC2_ENDPOINT_MAX → (s.hcd.edpt i).hcchar.enable = 1 →
      (s.hcd.edpt i).hcchar.dev_addr = dev_addr →
      (hcd_device_close s dev_addr).hcd.edpt i = HcdEndpoint.clear) ∧
    (∀ i, ¬((s.hcd.edpt i).hcchar.enable = 1 ∧ (s.hcd.edpt i).hcchar.dev_addr = dev_addr) →
      (hcd_device_close s dev_addr).hcd.edpt i = s.hcd.edpt i) ∧
    hcd_device_close (hcd_device_close s dev_addr) dev_addr = hcd_device_close s dev_addr := by
  refine ⟨rfl, rfl, ?_, ?_, ?_⟩
  · intro i h1 h2 h3
    simp [hcd_device_close, device_close_table, h1, h2, h3]
  · intro i h
    simp only [hcd_device_close, device_close_table]
    rw [if_neg]
    intro hc
    exact h ⟨hc.2.1, hc.2.2⟩
  · have key : device_close_table (device_close_table s.hcd.edpt dev_addr) dev_addr =
        device_close_table s.hcd.edpt dev_addr := by
      funext i
      by_cases hg : i < CFG_TUH_DWC2_ENDPOINT_MAX ∧ (s.hcd.edpt i).hcchar.enable = 1 ∧
          (s.hcd.edpt i).hcchar.dev_addr = dev_addr
      · simp [device_close_table, hg, HcdEndpoint.clear, ChannelChar.clear]
      · simp [device_close_table, hg]
    show ({ hcd_device_close s dev_addr with hcd := { (hcd_device_close s dev_addr).hcd with
      edpt := device_close_table (hcd_device_close s dev_addr).hcd.edpt dev_addr } } : HcdState) =
      hcd_device_close s dev_addr
    have hedpt : (hcd_device_close s dev_addr).hcd.edpt =
        device_close_table s.hcd.edpt dev_addr := rfl
    rw [hedpt, key]
    rfl

/-- Projections of a record update that does not touch the endpoint type:
periodicity only depends on `ep_type`. -/
theorem channel_is_periodic_update (c : ChannelChar) (f d : Nat) :
    channel_is_periodic { c with odd_frame := f, ep_dir := d } = channel_is_periodic c := rfl

/-- State for the IN-submission counterexample: bulk IN endpoint opened in
slot 0, all channels free, non-periodic request queue full (0 entries
available). -/
def sC1 : HcdState :=
  { hcd := { xfer := fun _ => HcdXfer.clear,
             edpt := upd (fun _ => HcdEndpoint.clear) 0 epBulkIn },
    dwc2 := { regsBase with hnptxsts_req_queue_available := 0 } }

/-- C1 counterexample: submitting an IN transfer (device 1, endpoint 0x81,
64 bytes) with the non-periodic request queue full makes the submission fail
(`false`), but channel 0 — free before the call — is left allocated: the
channel pool is changed by the failed submission, refuting the claim that no
channel is left allocated. -/
theorem c1_counterexample :
    (hcd_edpt_xfer sC1 1 129 0 64).1 = false ∧
    (sC1.hcd.xfer 0).state = HCD_XFER_STATE_UNALLOCATED ∧
    ((hcd_edpt_xfer sC1 1 129 0 64).2.hcd.xfer 0).state = HCD_XFER_STATE_ACTIVE := by
  decide

/-- C1 amended: for every IN-direction submission made when the
corresponding (periodic or non-periodic) hardware request queue has no free
slot, the submission fails, but the channel allocated earlier in the call
remains allocated (it is leaked, not returned to the pool). -/
theorem c1_amended (s : HcdState) (dev_addr ep_addr buffer buflen ep_id ch_id : Nat)
    (h1 : tu_edpt_dir ep_addr = TUSB_DIR_IN)
    (h2 : edpt_find_opened s.hcd.edpt dev_addr (tu_edpt_number ep_addr)
      (tu_edpt_dir ep_addr) = some ep_id)
    (h3 : scan_unallocated s.hcd.xfer 0 (DWC2_CHANNEL_COUNT s.dwc2) = some ch_id)
    (h4 : request_queue_avail s.dwc2
      (channel_is_periodic (s.hcd.edpt ep_id).hcchar) = 0) :
    (hcd_edpt_xfer s dev_addr ep_addr buffer buflen).1 = false ∧
    ((hcd_edpt_xfer s dev_addr ep_addr buffer buflen).2.hcd.xfer ch_id).state =
      HCD_XFER_STATE_ACTIVE := by
  simp only [hcd_edpt_xfer, channel_alloc, h2, h3]
  simp only [h1, channel_is_periodic_update, h4]
  simp [upd, HcdXfer.clear]

/-- Witness for C1 amended: the concrete counterexample state satisfies all
hypotheses, and the failed submission leaves channel 0 allocated. -/
theorem c1_witness :
    (hcd_edpt_xfer sC1 1 129 0 64).1 = false ∧
    ((hcd_edpt_xfer sC1 1 129 0 64).2.hcd.xfer 0).state = HCD_XFER_STATE_ACTIVE :=
  c1_amended sC1 1 129 0 64 0 0 (by decide) (by decide) (by decide) (by decide)

/-- HCINTMSK programmed by `hcd_edpt_xfer` for an IN endpoint. -/
def maskIn : Nat :=
  HCINT_NAK ||| HCINT_XACT_ERR ||| HCINT_STALL ||| HCINT_XFER_COMPLETE |||
    HCINT_DATATOGGLE_ERR ||| HCINT_BABBLE_ERR

/-- Channel registers during the error scenario: bulk IN transfer on channel
0 with the hardware error counter field even sitting at the maximum. -/
def chanC2 : Dwc2Channel :=
  { hcchar := { bulkInChar with err_multi_count := HCD_XFER_ERROR_MAX },
    hcsplt := ChannelSplit.clear,
    hctsiz := { pid := 0, packet_count := 1, xfer_size := 64 },
    hcintmsk := maskIn, hcint := 0 }

/-- Channel bookkeeping at the start of the error scenario. -/
def xferC2 : HcdXfer :=
  { state := HCD_XFER_STATE_ACTIVE, err_count := 0, buffer := 0, total_bytes := 64 }

/-- First transaction-error interrupt of the scenario. -/
def rC2_1 : ChannelIrqResult :=
  handle_channel_irq_ch regsBase 1 0 { chanC2 with hcint := HCINT_XACT_ERR } xferC2

/-- Second transaction-error interrupt. -/
def rC2_2 : ChannelIrqResult :=
  handle_channel_irq_ch regsBase 1 0 { rC2_1.channel with hcint := HCINT_XACT_ERR } rC2_1.xfer

/-- Third transaction-error interrupt. -/
def rC2_3 : ChannelIrqResult :=
  handle_channel_irq_ch regsBase 1 0 { rC2_2.channel with hcint := HCINT_XACT_ERR } rC2_2.xfer

/-- Channel-halted interrupt following the three errors, with the HCINTMSK
the driver actually programmed. -/
def rC2_4 : ChannelIrqResult :=
  handle_channel_irq_ch regsBase 1 0
    { rC2_3.channel with hcint := HCINT_CHANNEL_HALTED } rC2_3.xfer

/-- Channel registers for the benefit-of-the-doubt halted interrupt: the
CHANNEL_HALTED bit additionally unmasked. -/
def chanC2_5 : Dwc2Channel :=
  { rC2_3.channel with
    hcint := HCINT_CHANNEL_HALTED,
    hcintmsk := rC2_3.channel.hcintmsk ||| HCINT_CHANNEL_HALTED }

/-- Channel-halted interrupt following the three errors, giving the code the
benefit of an unmasked CHANNEL_HALTED bit. -/
def rC2_5 : ChannelIrqResult :=
  handle_channel_irq_ch regsBase 1 0 chanC2_5 rC2_3.xfer

/-- C2: three consecutive transaction errors (no intervening ACK) do drive
`err_count` to the maximum of 3, but the following channel-halted signal
produces no terminal failure: with the driver-programmed mask the halted bit
is masked out entirely (nothing happens, the aggregate mask bit is not even
cleared), and even with the halted bit unmasked — the branch that compares
`hcchar_bm.err_multi_count` (not the incremented `err_count`) against the
maximum — both arms are empty: no completion event is raised and the channel
is never deallocated (its state stays ACTIVE). -/
theorem c2_bug_eval :
    rC2_3.xfer.err_count = HCD_XFER_ERROR_MAX ∧
    rC2_3.xfer.state = HCD_XFER_STATE_ACTIVE ∧
    rC2_4.event = none ∧
    rC2_4.xfer.state = HCD_XFER_STATE_ACTIVE ∧
    rC2_4.haintmsk = 1 ∧
    rC2_5.event = none ∧
    rC2_5.xfer.state = HCD_XFER_STATE_ACTIVE ∧
    rC2_5.haintmsk = 0 := by
  decide

/-- Channel registers for the completion-report counterexample: transfer
complete raised on a bulk IN transfer whose requested length was 64 bytes. -/
def chanC3 : Dwc2Channel :=
  { hcchar := bulkInChar, hcsplt := ChannelSplit.clear,
    hctsiz := { pid := 0, packet_count := 0, xfer_size := 0 },
    hcintmsk := maskIn, hcint := HCINT_XFER_COMPLETE }

/-- Channel bookkeeping for the completion-report counterexample: the
originally requested total length is 64. -/
def xferC3 : HcdXfer :=
  { state := HCD_XFER_STATE_ACTIVE, err_count := 0, buffer := 64, total_bytes := 64 }

/-- C3 counterexample: on successful completion of a transfer whose
originally requested total length is 64 bytes, the completion event carries
`xferred_bytes = 0`, not 64 — refuting the claim that the notification
reports the originally requested length. -/
theorem c3_counterexample :
    (handle_channel_irq_ch regsBase 1 0 chanC3 xferC3).event =
      some { dev_addr := 1, ep_addr := 129, xferred_bytes := 0,
             result := XFER_RESULT_SUCCESS } ∧
    xferC3.total_bytes = 64 ∧ (0 : Nat) ≠ 64 := by
  decide

/-- C3 amended: every completion event raised by the per-channel interrupt
handler carries a transferred byte count of 0 (hardcoded in the call), for
every terminal result. -/
theorem c3_amended (dwc2 : Dwc2Regs) (haintmsk ch_id : Nat) (chan : Dwc2Channel)
    (xfer : HcdXfer) (e : XferEvent)
    (h : (handle_channel_irq_ch dwc2 haintmsk ch_id chan xfer).event = some e) :
    e.xferred_bytes = 0 := by
  simp only [handle_channel_irq_ch, channel_irq_finish] at h
  repeat' split at h
  all_goals try simp_all
  all_goals subst h
  all_goals rfl

/-- The event of the C3 counterexample run. -/
def evC3 : XferEvent :=
  { dev_addr := 1, ep_addr := 129, xferred_bytes := 0, result := XFER_RESULT_SUCCESS }

/-- Witness for C3 amended: the concrete completion event of the
counterexample run reports 0 transferred bytes. -/
theorem c3_witness :
    (handle_channel_irq_ch regsBase 1 0 chanC3 xferC3).event = some evC3 ∧
    evC3.xferred_bytes = 0 :=
  ⟨by decide, c3_amended regsBase 1 0 chanC3 xferC3 evC3 (by decide)⟩

/-- The endpoint table holds at most one slot matching any
(device address, endpoint number, direction) query, under the driver's own
match rule (EP0 bidirectional). -/
def edpt_unique (edpt : Nat → HcdEndpoint) : Prop :=
  ∀ dev_addr ep_num ep_dir i j,
    i < CFG_TUH_DWC2_ENDPOINT_MAX → j < CFG_TUH_DWC2_ENDPOINT_MAX →
    edpt_matches (edpt i).hcchar dev_addr ep_num ep_dir = true →
    edpt_matches (edpt j).hcchar dev_addr ep_num ep_dir = true → i = j

/-- Propositional unfolding of the slot-match condition. -/
theorem edpt_matches_eq_true (c : ChannelChar) (dev_addr ep_num ep_dir : Nat) :
    edpt_matches c dev_addr ep_num ep_dir = true ↔
      c.enable = 1 ∧ c.dev_addr = dev_addr ∧ c.ep_num = ep_num ∧
        (ep_num = 0 ∨ c.ep_dir = ep_dir) := by
  simp [edpt_matches, and_assoc]

/-- If the opened-endpoint scan fails, no slot in the scanned range matches. -/
theorem edpt_scan_opened_none (edpt : Nat → HcdEndpoint) (dev_addr ep_num ep_dir : Nat) :
    ∀ i fuel, edpt_scan_opened edpt dev_addr ep_num ep_dir i fuel = none →
    ∀ k, i ≤ k → k < i + fuel → edpt_matches (edpt k).hcchar dev_addr ep_num ep_dir = false := by
  intro i fuel
  induction fuel generalizing i with
  | zero => intro _ k hk1 hk2; omega
  | succ n ih =>
    intro h k hk1 hk2
    unfold edpt_scan_opened at h
    by_cases hc : edpt_matches (edpt i).hcchar dev_addr ep_num ep_dir = true
    · simp [hc] at h
    · rcases Nat.eq_or_lt_of_le hk1 with rfl | hlt
      · simpa using hc
      · have h' : edpt_scan_opened edpt dev_addr ep_num ep_dir (i + 1) n = none := by
          simpa [hc] using h
        exact ih (i + 1) h' k hlt (by omega)

/-- If `edpt_find_opened` fails, no slot in the table matches the tuple. -/
theorem edpt_find_opened_none (edpt : Nat → HcdEndpoint) (dev_addr ep_num ep_dir : Nat)
    (h : edpt_find_opened edpt dev_addr ep_num ep_dir = none) :
    ∀ k, k < CFG_TUH_DWC2_ENDPOINT_MAX →
    edpt_matches (edpt k).hcchar dev_addr ep_num ep_dir = false := by
  intro k hk
  exact edpt_scan_opened_none edpt dev_addr ep_num ep_dir 0 CFG_TUH_DWC2_ENDPOINT_MAX h k
    (Nat.zero_le k) (by omega)

/-- Descriptor of a bulk OUT endpoint 1 with 64-byte packets. -/
def descBulkOut : EndpointDescriptor :=
  { bEndpointAddress := 1, wMaxPacketSize := 64, xfer_type := HCCHAR_EPTYPE_BULK }

/-- Full-speed device-tree info, no hub. -/
def dtFull : DevtreeInfo := { speed := 0, hub_addr := 0, hub_port := 0 }

/-- Endpoint table after opening the same endpoint descriptor twice on
device 1 starting from the empty state. -/
def tableC6 : Nat → HcdEndpoint :=
  ((hcd_edpt_open (hcd_edpt_open sEmpty 1 descBulkOut dtFull).2 1 descBulkOut
    dtFull).2).hcd.edpt

/-- C6 counterexample: `hcd_edpt_open` scans only for a free slot, not for an
existing slot with the same tuple, so a sequence of two opens of the same
(device 1, endpoint 1, OUT) endpoint leaves two distinct slots (0 and 1) both
matching that tuple — refuting the claimed at-most-one-slot invariant for
every open/close sequence. -/
theorem c6_counterexample :
    edpt_matches (tableC6 0).hcchar 1 1 0 = true ∧
    edpt_matches (tableC6 1).hcchar 1 1 0 = true ∧
    ¬ edpt_unique tableC6 := by
  refine ⟨by decide, by decide, fun hu => ?_⟩
  exact absurd (hu 1 1 0 0 1 (by decide) (by decide) (by decide) (by decide)) (by decide)

/-- C6 amended: the scan before insert looks only for a free slot, so
uniqueness is not enforced against duplicate opens; however, for every open
of a tuple that is not already present in the table (the find operation
fails on it), the at-most-one-slot-per-tuple invariant is preserved (and
`hcd_device_close` can only clear slots, so it preserves it trivially). -/
theorem c6_amended (s : HcdState) (dev_addr : Nat) (desc : EndpointDescriptor)
    (dt : DevtreeInfo)
    (huniq : edpt_unique s.hcd.edpt)
    (hnew : edpt_find_opened s.hcd.edpt dev_addr (tu_edpt_number desc.bEndpointAddress)
      (tu_edpt_dir desc.bEndpointAddress) = none) :
    edpt_unique ((hcd_edpt_open s dev_addr desc dt).2.hcd.edpt) := by
  unfold hcd_edpt_open
  cases hscan : edpt_scan_free s.hcd.edpt 0 CFG_TUH_DWC2_ENDPOINT_MAX with
  | none => simpa using huniq
  | some i =>
    simp only []
    intro dev num dir a b ha hb hma hmb
    by_cases hai : a = i <;> by_cases hbi : b = i
    · rw [hai, hbi]
    · -- the fresh slot and an old slot cannot both match the same query
      exfalso
      subst hai
      rw [upd_self] at hma
      rw [upd_other _ _ _ _ hbi] at hmb
      rw [edpt_matches_eq_true] at hma hmb
      obtain ⟨-, hdev, hnum, hdir⟩ := hma
      have hdev' : dev_addr = dev := hdev
      have hnum' : tu_edpt_number desc.bEndpointAddress = num := hnum
      obtain ⟨hbe, hbdev, hbnum, hbdir⟩ := hmb
      have hb' : edpt_matches (s.hcd.edpt b).hcchar dev_addr
          (tu_edpt_number desc.bEndpointAddress) (tu_edpt_dir desc.bEndpointAddress) = true := by
        rw [edpt_matches_eq_true]
        refine ⟨hbe, by rw [hbdev]; exact hdev'.symm, by rw [hbnum]; exact hnum'.symm, ?_⟩
        rcases hdir with hnum0 | hdirq
        · exact Or.inl (hnum'.trans hnum0)
        · have hdirq' : tu_edpt_dir desc.bEndpointAddress = dir := hdirq
          rcases hbdir with hbnum0 | hbdirq
          · exact Or.inl (hnum'.trans hbnum0)
          · exact Or.inr (hbdirq.trans hdirq'.symm)
      have hnone := edpt_find_opened_none s.hcd.edpt dev_addr
        (tu_edpt_number desc.bEndpointAddress) (tu_edpt_dir desc.bEndpointAddress) hnew b hb
      rw [hb'] at hnone
      simp at hnone
    · -- symmetric case
      exfalso
      subst hbi
      rw [upd_self] at hmb
      rw [upd_other _ _ _ _ hai] at hma
      rw [edpt_matches_eq_true] at hma hmb
      obtain ⟨-, hdev, hnum, hdir⟩ := hmb
      have hdev' : dev_addr = dev := hdev
      have hnum' : tu_edpt_number desc.bEndpointAddress = num := hnum
      obtain ⟨hae, hadev, hanum, hadir⟩ := hma
      have ha' : edpt_matches (s.hcd.edpt a).hcchar dev_addr
          (tu_edpt_number desc.bEndpointAddress) (tu_edpt_dir desc.bEndpointAddress) = true := by
        rw [edpt_matches_eq_true]
        refine ⟨hae, by rw [hadev]; exact hdev'.symm, by rw [hanum]; exact hnum'.symm, ?_⟩
        rcases hdir with hnum0 | hdirq
        · exact Or.inl (hnum'.trans hnum0)
        · have hdirq' : tu_edpt_dir desc.bEndpointAddress = dir := hdirq
          rcases hadir with hanum0 | hadirq
          · exact Or.inl (hnum'.trans hanum0)
          · exact Or.inr (hadirq.trans hdirq'.symm)
      have hnone := edpt_find_opened_none s.hcd.edpt dev_addr
        (tu_edpt_number desc.bEndpointAddress) (tu_edpt_dir desc.bEndpointAddress) hnew a ha
      rw [ha'] at hnone
      simp at hnone
    · rw [upd_other _ _ _ _ hai] at hma
      rw [upd_other _ _ _ _ hbi] at hmb
      exact huniq dev num dir a b ha hb hma hmb

/-- Witness for C6 amended: opening the bulk OUT endpoint once on the empty
table (where the tuple is absent) yields a table satisfying the
at-most-one-slot invariant. -/
theorem c6_witness :
    edpt_unique ((hcd_edpt_open sEmpty 1 descBulkOut dtFull).2.hcd.edpt) := by
  apply c6_amended sEmpty 1 descBulkOut dtFull
  · intro dev num dir i j hi hj hmi hmj
    simp [sEmpty, edpt_matches, HcdEndpoint.clear, ChannelChar.clear] at hmi
  · decide

/-- Whatever branch `hcd_edpt_xfer` exits through, the HCTSIZ word it
programmed on the allocated channel carries the endpoint's current data
toggle as PID, the computed packet count, and the total length. -/
theorem xfer_programs_hctsiz (s : HcdState) (dev_addr ep_addr buffer buflen ep_id ch_id : Nat)
    (h1 : edpt_find_opened s.hcd.edpt dev_addr (tu_edpt_number ep_addr)
      (tu_edpt_dir ep_addr) = some ep_id)
    (h2 : scan_unallocated s.hcd.xfer 0 (DWC2_CHANNEL_COUNT s.dwc2) = some ch_id) :
    ((hcd_edpt_xfer s dev_addr ep_addr buffer buflen).2.dwc2.channel ch_id).hctsiz =
      { pid := (s.hcd.edpt ep_id).next_data_toggle,
        packet_count :=
          if tu_div_ceil buflen (s.hcd.edpt ep_id).hcchar.ep_size = 0 then 1
          else tu_div_ceil buflen (s.hcd.edpt ep_id).hcchar.ep_size,
        xfer_size := buflen } := by
  simp only [hcd_edpt_xfer, channel_alloc, h1, h2]
  split
  · split
    · simp [upd]
    · simp [upd]
  · simp [upd]

/-- Whatever branch `hcd_edpt_xfer` exits through, the endpoint slot's stored
data toggle is advanced exactly once, by the code's rule. -/
theorem xfer_advances_toggle (s : HcdState) (dev_addr ep_addr buffer buflen ep_id ch_id : Nat)
    (h1 : edpt_find_opened s.hcd.edpt dev_addr (tu_edpt_number ep_addr)
      (tu_edpt_dir ep_addr) = some ep_id)
    (h2 : scan_unallocated s.hcd.xfer 0 (DWC2_CHANNEL_COUNT s.dwc2) = some ch_id) :
    ((hcd_edpt_xfer s dev_addr ep_addr buffer buflen).2.hcd.edpt ep_id).next_data_toggle =
      if (s.hcd.edpt ep_id).next_data_toggle = HCTSIZ_PID_DATA0 ∨ tu_edpt_number ep_addr = 0
      then HCTSIZ_PID_DATA1 else HCTSIZ_PID_DATA0 := by
  simp only [hcd_edpt_xfer, channel_alloc, h1, h2]
  split
  · split
    · simp [upd]
    · simp [upd]
  · simp [upd]

/-- Updating only a slot's `next_data_toggle` does not change the result of
the opened-endpoint scan (the scan only reads `hcchar` fields). -/
theorem edpt_scan_opened_toggle_congr (t : Nat → HcdEndpoint) (ep_id tgl dev num dir : Nat) :
    ∀ i fuel, edpt_scan_opened (upd t ep_id { t ep_id with next_data_toggle := tgl })
      dev num dir i fuel = edpt_scan_opened t dev num dir i fuel := by
  intro i fuel
  induction fuel generalizing i with
  | zero => rfl
  | succ n ih =>
    unfold edpt_scan_opened
    have hc : (upd t ep_id { t ep_id with next_data_toggle := tgl } i).hcchar =
        (t i).hcchar := by
      by_cases h : i = ep_id
      · subst h; rw [upd_self]
      · rw [upd_other _ _ _ _ h]
    rw [hc, ih]

/-- C7: every transfer submission programs the channel's PID with the
endpoint's current stored data toggle and advances the stored toggle exactly
once: to DATA1 when the current toggle is DATA0 or the endpoint is a control
endpoint (number 0), to DATA0 otherwise (alternation); and a setup-packet
submission forces the toggle to SETUP immediately before programming, so the
programmed PID is SETUP. -/
theorem c7_data_toggle (s : HcdState)
    (dev_addr ep_addr buffer buflen ep_id ch_id dev2 sbuf ep2 ch2 : Nat)
    (h1 : edpt_find_opened s.hcd.edpt dev_addr (tu_edpt_number ep_addr)
      (tu_edpt_dir ep_addr) = some ep_id)
    (h2 : scan_unallocated s.hcd.xfer 0 (DWC2_CHANNEL_COUNT s.dwc2) = some ch_id)
    (h3 : edpt_find_opened s.hcd.edpt dev2 0 TUSB_DIR_OUT = some ep2)
    (h4 : scan_unallocated s.hcd.xfer 0 (DWC2_CHANNEL_COUNT s.dwc2) = some ch2) :
    (((hcd_edpt_xfer s dev_addr ep_addr buffer buflen).2.dwc2.channel ch_id).hctsiz.pid =
      (s.hcd.edpt ep_id).next_data_toggle) ∧
    ((s.hcd.edpt ep_id).next_data_toggle = HCTSIZ_PID_DATA0 ∨ tu_edpt_number ep_addr = 0 →
      ((hcd_edpt_xfer s dev_addr ep_addr buffer buflen).2.hcd.edpt ep_id).next_data_toggle =
        HCTSIZ_PID_DATA1) ∧
    ((s.hcd.edpt ep_id).next_data_toggle ≠ HCTSIZ_PID_DATA0 → tu_edpt_number ep_addr ≠ 0 →
      ((hcd_edpt_xfer s dev_addr ep_addr buffer buflen).2.hcd.edpt ep_id).next_data_toggle =
        HCTSIZ_PID_DATA0) ∧
    ((hcd_setup_send s dev2 sbuf).2.dwc2.channel ch2).hctsiz.pid = HCTSIZ_PID_SETUP := by
  refine ⟨?_, ?_, ?_, ?_⟩
  · rw [xfer_programs_hctsiz s dev_addr ep_addr buffer buflen ep_id ch_id h1 h2]
  · intro hcase
    rw [xfer_advances_toggle s dev_addr ep_addr buffer buflen ep_id ch_id h1 h2,
      if_pos hcase]
  · intro hne h0
    rw [xfer_advances_toggle s dev_addr ep_addr buffer buflen ep_id ch_id h1 h2,
      if_neg (not_or.mpr ⟨hne, h0⟩)]
  · simp only [hcd_setup_send, h3]
    rw [xfer_programs_hctsiz _ dev2 0 sbuf 8 ep2 ch2 ?hfind ?halloc]
    · simp [upd]
    case hfind =>
      show edpt_scan_opened
        (upd s.hcd.edpt ep2 { s.hcd.edpt ep2 with next_data_toggle := HCTSIZ_PID_SETUP })
        dev2 (tu_edpt_number 0) (tu_edpt_dir 0) 0 CFG_TUH_DWC2_ENDPOINT_MAX = some ep2
      rw [edpt_scan_opened_toggle_congr]
      exact h3
    case halloc => exact h4

/-- State with the bulk IN endpoint in slot 0 and device 1's control endpoint
EP0 in slot 1, all channels free. -/
def sC7 : HcdState :=
  { hcd := { xfer := fun _ => HcdXfer.clear,
             edpt := upd (upd (fun _ => HcdEndpoint.clear) 0 epBulkIn) 1 epControl },
    dwc2 := regsBase }

/-- Witness for C7: on the concrete state, a bulk IN submission programs the
PID from the stored toggle (DATA0) and advances it to DATA1, and a setup send
programs PID = SETUP. -/
theorem c7_witness :
    ((hcd_edpt_xfer sC7 1 129 0 64).2.dwc2.channel 0).hctsiz.pid =
      (sC7.hcd.edpt 0).next_data_toggle ∧
    ((hcd_edpt_xfer sC7 1 129 0 64).2.hcd.edpt 0).next_data_toggle = HCTSIZ_PID_DATA1 ∧
    ((hcd_setup_send sC7 1 0).2.dwc2.channel 0).hctsiz.pid = HCTSIZ_PID_SETUP := by
  have h := c7_data_toggle sC7 1 129 0 64 0 0 1 0 1 0 (by decide) (by decide) (by decide)
    (by decide)
  exact ⟨h.1, h.2.1 (Or.inl (by decide)), h.2.2.2⟩

/-- C9: the packet count programmed by every transfer submission is
`ceil(length / max_packet_size)` — characterized order-theoretically for
positive lengths — and a zero-length submission programs a packet count of
exactly 1. -/
theorem c9_packet_count (s : HcdState) (dev_addr ep_addr buffer buflen ep_id ch_id : Nat)
    (h1 : edpt_find_opened s.hcd.edpt dev_addr (tu_edpt_number ep_addr)
      (tu_edpt_dir ep_addr) = some ep_id)
    (h2 : scan_unallocated s.hcd.xfer 0 (DWC2_CHANNEL_COUNT s.dwc2) = some ch_id)
    (h3 : 0 < (s.hcd.edpt ep_id).hcchar.ep_size) :
    (buflen = 0 →
      ((hcd_edpt_xfer s dev_addr ep_addr buffer buflen).2.dwc2.channel
        ch_id).hctsiz.packet_count = 1) ∧
    (0 < buflen →
      (((hcd_edpt_xfer s dev_addr ep_addr buffer buflen).2.dwc2.channel
          ch_id).hctsiz.packet_count - 1) * (s.hcd.edpt ep_id).hcchar.ep_size < buflen ∧
      buflen ≤ ((hcd_edpt_xfer s dev_addr ep_addr buffer buflen).2.dwc2.channel
          ch_id).hctsiz.packet_count * (s.hcd.edpt ep_id).hcchar.ep_size) := by
  rw [xfer_programs_hctsiz s dev_addr ep_addr buffer buflen ep_id ch_id h1 h2]
  dsimp only
  constructor
  · intro h0
    subst h0
    have hz : tu_div_ceil 0 (s.hcd.edpt ep_id).hcchar.ep_size = 0 := by
      unfold tu_div_ceil
      exact Nat.div_eq_of_lt (by omega)
    rw [hz]
    rfl
  · intro hpos
    unfold tu_div_ceil
    have hq := Nat.div_add_mod (buflen + (s.hcd.edpt ep_id).hcchar.ep_size - 1)
      (s.hcd.edpt ep_id).hcchar.ep_size
    have hr : (buflen + (s.hcd.edpt ep_id).hcchar.ep_size - 1) %
        (s.hcd.edpt ep_id).hcchar.ep_size < (s.hcd.edpt ep_id).hcchar.ep_size :=
      Nat.mod_lt _ h3
    by_cases hz : (buflen + (s.hcd.edpt ep_id).hcchar.ep_size - 1) /
        (s.hcd.edpt ep_id).hcchar.ep_size = 0
    · exfalso
      rw [hz] at hq
      omega
    · rw [if_neg hz]
      have hq1 : 1 ≤ (buflen + (s.hcd.edpt ep_id).hcchar.ep_size - 1) /
          (s.hcd.edpt ep_id).hcchar.ep_size := Nat.pos_of_ne_zero hz
      have hsub : ((buflen + (s.hcd.edpt ep_id).hcchar.ep_size - 1) /
            (s.hcd.edpt ep_id).hcchar.ep_size - 1) * (s.hcd.edpt ep_id).hcchar.ep_size =
          (buflen + (s.hcd.edpt ep_id).hcchar.ep_size - 1) /
            (s.hcd.edpt ep_id).hcchar.ep_size * (s.hcd.edpt ep_id).hcchar.ep_size -
            (s.hcd.edpt ep_id).hcchar.ep_size := by
        rw [Nat.sub_mul, Nat.one_mul]
      have hA : (s.hcd.edpt ep_id).hcchar.ep_size ≤
          (s.hcd.edpt ep_id).hcchar.ep_size *
            ((buflen + (s.hcd.edpt ep_id).hcchar.ep_size - 1) /
              (s.hcd.edpt ep_id).hcchar.ep_size) := by
        calc (s.hcd.edpt ep_id).hcchar.ep_size
            = (s.hcd.edpt ep_id).hcchar.ep_size * 1 :=
              (Nat.mul_one (s.hcd.edpt ep_id).hcchar.ep_size).symm
          _ ≤ (s.hcd.edpt ep_id).hcchar.ep_size *
              ((buflen + (s.hcd.edpt ep_id).hcchar.ep_size - 1) /
                (s.hcd.edpt ep_id).hcchar.ep_size) :=
              Nat.mul_le_mul_left _ hq1
      constructor
      · rw [hsub, Nat.mul_comm]
        omega
      · rw [Nat.mul_comm]
        omega

/-- Witness for C9: on the concrete state (64-byte packets), a 150-byte
submission programs a packet count pc with (pc-1)*64 < 150 ≤ pc*64 (so
pc = 3), and a zero-length submission programs packet count 1. -/
theorem c9_witness :
    ((hcd_edpt_xfer sC7 1 129 0 0).2.dwc2.channel 0).hctsiz.packet_count = 1 ∧
    (((hcd_edpt_xfer sC7 1 129 0 150).2.dwc2.channel 0).hctsiz.packet_count - 1) *
      (sC7.hcd.edpt 0).hcchar.ep_size < 150 ∧
    150 ≤ ((hcd_edpt_xfer sC7 1 129 0 150).2.dwc2.channel 0).hctsiz.packet_count *
      (sC7.hcd.edpt 0).hcchar.ep_size := by
  have ha := c9_packet_count sC7 1 129 0 0 0 0 (by decide) (by decide) (by decide)
  have hb := c9_packet_count sC7 1 129 0 150 0 0 (by decide) (by decide) (by decide)
  exact ⟨ha.1 rfl, (hb.2 (by omega)).1, (hb.2 (by omega)).2⟩

/-- Witness for C10: closing device 1 clears slots 0 and 1, leaves device 2's
slot and the active channel-0 bookkeeping untouched, and is idempotent. -/
theorem c10_witness :
    (hcd_device_close sC10 1).hcd.xfer = sC10.hcd.xfer ∧
    (hcd_device_close sC10 1).hcd.edpt 0 = HcdEndpoint.clear ∧
    (hcd_device_close sC10 1).hcd.edpt 1 = HcdEndpoint.clear ∧
    (hcd_device_close sC10 1).hcd.edpt 2 = sC10.hcd.edpt 2 ∧
    hcd_device_close (hcd_device_close sC10 1) 1 = hcd_device_close sC10 1 := by
  have h := c10_device_close sC10 1
  exact ⟨h.1, h.2.2.1 0 (by decide) (by decide) (by decide),
    h.2.2.1 1 (by decide) (by decide) (by decide),
    h.2.2.2.1 2 (by decide), h.2.2.2.2⟩

end HcdDwc2
